import Mathlib

/-!
Verification of the dual-authority escrow program's state model and
operation layer.  The Rust source is shallowly embedded: the escrow
record is a structure over `Nat` (machine `u64`/`u8` values, with
explicit `% 2^64` where the source wraps and `checked_add` modelling
overflow-checked addition) and `Int` (machine `i64` timestamps); each
instruction handler becomes a function from the record plus the values
it reads from the runtime (token-account balance, clock, caller key)
to an error-or-unit outcome, the resulting record, and the list of
external interactions it requests.
-/

set_option linter.unusedVariables false

namespace Escrow

/-- Balance and timing constants from `constants.rs`. -/
def DEFAULT_MAX_BALANCE : Nat := 1000000000000

def MAX_ALLOWED_BALANCE : Nat := 10000000000000

def MAX_TRANSACTION_AMOUNT : Nat := 100000000000

def DUST_THRESHOLD : Nat := 10

def MIN_AUTHORITY_AGE : Int := 300

def UNPAUSE_COOLDOWN : Int := 300

def MIN_TOKEN_DECIMALS : Nat := 6

def MAX_TOKEN_DECIMALS : Nat := 9

def MIN_RENT_EXEMPT_LAMPORTS : Nat := 2039280

def MAX_SUBSCRIPTION_FEE : Nat := 1000000000

/-- One more than the largest `u64` value; `u64` arithmetic is `Nat`
arithmetic reduced modulo this bound. -/
def U64LIMIT : Nat := 2 ^ 64

/-- Rust `u64::checked_add`: `some` of the sum when it fits in 64 bits,
`none` on overflow. -/
def checked_add (a b : Nat) : Option Nat :=
  if a + b < U64LIMIT then some (a + b) else none

/-- Rust `u64::wrapping_add(1)`, used only for the action nonce. -/
def wrapping_add1 (a : Nat) : Nat := (a + 1) % U64LIMIT

/-- Flag bit positions from `state.rs`. -/
def FLAG_PLATFORM_ACTIVE : Nat := 1

def FLAG_TRADING_ACTIVE : Nat := 2

def FLAG_PAUSED : Nat := 4

/-- The persistent escrow record (`EscrowAccount` in `state.rs`).
Public keys are modelled as `Nat`, with `0` standing for
`Pubkey::default()` (the null identity). -/
@[ext]
structure EscrowAccount where
  user : Nat
  platform_authority : Nat
  trading_authority : Nat
  token_mint : Nat
  bump : Nat
  flags : Nat
  created_at : Int
  platform_activated_at : Int
  trading_activated_at : Int
  last_paused_at : Int
  action_nonce : Nat
  total_deposited : Nat
  total_withdrawn : Nat
  total_fees_paid : Nat
  total_traded : Nat
  max_balance : Nat
  max_lifetime : Int
  reserved : List Nat
deriving Repr, DecidableEq

/-- `EscrowAccount::is_platform_active`. -/
def EscrowAccount.is_platform_active (e : EscrowAccount) : Bool :=
  e.flags &&& FLAG_PLATFORM_ACTIVE != 0

/-- `EscrowAccount::set_platform_active`. -/
def EscrowAccount.set_platform_active (e : EscrowAccount) (active : Bool) : EscrowAccount :=
  if active then { e with flags := e.flags ||| FLAG_PLATFORM_ACTIVE }
  else { e with flags := e.flags &&& (255 ^^^ FLAG_PLATFORM_ACTIVE) }

/-- `EscrowAccount::is_trading_active`. -/
def EscrowAccount.is_trading_active (e : EscrowAccount) : Bool :=
  e.flags &&& FLAG_TRADING_ACTIVE != 0

/-- `EscrowAccount::set_trading_active`. -/
def EscrowAccount.set_trading_active (e : EscrowAccount) (active : Bool) : EscrowAccount :=
  if active then { e with flags := e.flags ||| FLAG_TRADING_ACTIVE }
  else { e with flags := e.flags &&& (255 ^^^ FLAG_TRADING_ACTIVE) }

/-- `EscrowAccount::is_paused`. -/
def EscrowAccount.is_paused (e : EscrowAccount) : Bool :=
  e.flags &&& FLAG_PAUSED != 0

/-- `EscrowAccount::set_paused`: setting the flag also stamps
`last_paused_at`; clearing it leaves the timestamp alone. -/
def EscrowAccount.set_paused (e : EscrowAccount) (paused : Bool) (timestamp : Int) : EscrowAccount :=
  if paused then
    { e with flags := e.flags ||| FLAG_PAUSED, last_paused_at := timestamp }
  else { e with flags := e.flags &&& (255 ^^^ FLAG_PAUSED) }

/-- `EscrowAccount::has_active_authority`. -/
def EscrowAccount.has_active_authority (e : EscrowAccount) : Bool :=
  e.is_platform_active || e.is_trading_active

/-- `EscrowAccount::is_expired`. -/
def EscrowAccount.is_expired (e : EscrowAccount) (current_timestamp : Int) : Bool :=
  if e.max_lifetime = 0 then false
  else decide (current_timestamp - e.created_at > e.max_lifetime)

/-- `EscrowAccount::can_unpause`. -/
def EscrowAccount.can_unpause (e : EscrowAccount) (current_timestamp : Int) : Bool :=
  if e.last_paused_at = 0 then true
  else decide (current_timestamp - e.last_paused_at >= UNPAUSE_COOLDOWN)

/-- `EscrowAccount::is_platform_authority_mature`. -/
def EscrowAccount.is_platform_authority_mature (e : EscrowAccount) (current_timestamp : Int) : Bool :=
  if e.platform_activated_at = 0 then false
  else decide (current_timestamp - e.platform_activated_at >= MIN_AUTHORITY_AGE)

/-- `EscrowAccount::is_trading_authority_mature`. -/
def EscrowAccount.is_trading_authority_mature (e : EscrowAccount) (current_timestamp : Int) : Bool :=
  if e.trading_activated_at = 0 then false
  else decide (current_timestamp - e.trading_activated_at >= MIN_AUTHORITY_AGE)

/-- The error codes from `errors.rs`. -/
inductive EscrowError where
  | Unauthorized
  | InvalidAmount
  | InsufficientBalance
  | EscrowStillActive
  | EscrowNotEmpty
  | MathOverflow
  | InvalidAuthority
  | EscrowPaused
  | EscrowNotPaused
  | MaxBalanceExceeded
  | PlatformAuthorityNotSet
  | TradingAuthorityNotSet
  | AmountTooLarge
  | InvalidTokenMint
  | InvalidDestination
  | DeadlineExceeded
  | EscrowExpired
  | InvalidLifetime
  | PlatformAuthorityTooNew
  | TradingAuthorityTooNew
  | StaleTransaction
  | CooldownNotElapsed
  | InvalidTokenDecimals
  | RentNotRecovered
  | UnauthorizedPlatform
  | UnauthorizedTrading
  | PlatformAuthorityAlreadySet
  | TradingAuthorityAlreadySet
deriving Repr, DecidableEq

/-- External effects an instruction can request from the token runtime. -/
inductive Interaction where
  | transferToEscrow (amount : Nat)
  | transferFromEscrow (destination : Nat) (amount : Nat)
  | closeTokenAccount
deriving Repr, DecidableEq

/-- Outcome of one instruction: the error (if any, as the handler
returns early), the escrow record as left by the handler, and the
external interactions requested. -/
structure OpResult where
  err : Option EscrowError
  escrow : EscrowAccount
  actions : List Interaction
deriving Repr, DecidableEq

/-- `initialize_escrow` from `lib.rs`: validates the requested ceiling
and the mint's decimals, then builds the fresh record. -/
def initialize_escrow (user_key token_mint_key : Nat) (mint_decimals : Nat)
    (bump : Nat) (max_balance : Nat) (now : Int) : Except EscrowError EscrowAccount :=
  if 0 < max_balance ∧ MAX_ALLOWED_BALANCE < max_balance then
    .error .MaxBalanceExceeded
  else if ¬ (MIN_TOKEN_DECIMALS ≤ mint_decimals ∧ mint_decimals ≤ MAX_TOKEN_DECIMALS) then
    .error .InvalidTokenDecimals
  else
    .ok
      { user := user_key
        platform_authority := 0
        trading_authority := 0
        token_mint := token_mint_key
        bump := bump
        flags := 0
        created_at := now
        platform_activated_at := 0
        trading_activated_at := 0
        last_paused_at := 0
        action_nonce := 0
        total_deposited := 0
        total_withdrawn := 0
        total_fees_paid := 0
        total_traded := 0
        max_balance := if max_balance = 0 then DEFAULT_MAX_BALANCE else max_balance
        max_lifetime := 0
        reserved := List.replicate 176 0 }

/-- `deposit_token` from `lib.rs`. -/
def deposit_token (e : EscrowAccount) (current_balance : Nat) (now : Int)
    (amount : Nat) : OpResult :=
  if e.is_paused then ⟨some .EscrowPaused, e, []⟩
  else if amount = 0 then ⟨some .InvalidAmount, e, []⟩
  else if e.is_expired now then ⟨some .EscrowExpired, e, []⟩
  else
    match checked_add current_balance amount with
    | none => ⟨some .MathOverflow, e, []⟩
    | some new_balance =>
      if 0 < e.max_balance ∧ e.max_balance < new_balance then
        ⟨some .MaxBalanceExceeded, e, []⟩
      else
        match checked_add e.total_deposited amount with
        | none => ⟨some .MathOverflow, e, []⟩
        | some td =>
          ⟨none,
            { e with total_deposited := td, action_nonce := wrapping_add1 e.action_nonce },
            [.transferToEscrow amount]⟩

/-- `delegate_platform_authority` from `lib.rs`. -/
def delegate_platform_authority (e : EscrowAccount) (now : Int)
    (platform_authority : Nat) : OpResult :=
  if e.is_paused then ⟨some .EscrowPaused, e, []⟩
  else if platform_authority = 0 then ⟨some .InvalidAuthority, e, []⟩
  else if e.platform_authority ≠ 0 then ⟨some .PlatformAuthorityAlreadySet, e, []⟩
  else if e.is_expired now then ⟨some .EscrowExpired, e, []⟩
  else
    let e1 := { e with platform_authority := platform_authority }
    let e2 := e1.set_platform_active true
    let e3 := { e2 with platform_activated_at := now,
                        action_nonce := wrapping_add1 e2.action_nonce }
    ⟨none, e3, []⟩

/-- `delegate_trading_authority` from `lib.rs`. -/
def delegate_trading_authority (e : EscrowAccount) (now : Int)
    (trading_authority : Nat) : OpResult :=
  if e.is_paused then ⟨some .EscrowPaused, e, []⟩
  else if trading_authority = 0 then ⟨some .InvalidAuthority, e, []⟩
  else if e.trading_authority ≠ 0 then ⟨some .TradingAuthorityAlreadySet, e, []⟩
  else if e.is_expired now then ⟨some .EscrowExpired, e, []⟩
  else
    let e1 := { e with trading_authority := trading_authority }
    let e2 := e1.set_trading_active true
    let e3 := { e2 with trading_activated_at := now,
                        action_nonce := wrapping_add1 e2.action_nonce }
    ⟨none, e3, []⟩

/-- `revoke_platform_authority` from `lib.rs`. -/
def revoke_platform_authority (e : EscrowAccount) : OpResult :=
  if e.is_paused then ⟨some .EscrowPaused, e, []⟩
  else
    let e1 := { e with platform_authority := 0 }
    let e2 := e1.set_platform_active false
    let e3 := { e2 with platform_activated_at := 0,
                        action_nonce := wrapping_add1 e2.action_nonce }
    ⟨none, e3, []⟩

/-- `revoke_trading_authority` from `lib.rs`. -/
def revoke_trading_authority (e : EscrowAccount) : OpResult :=
  if e.is_paused then ⟨some .EscrowPaused, e, []⟩
  else
    let e1 := { e with trading_authority := 0 }
    let e2 := e1.set_trading_active false
    let e3 := { e2 with trading_activated_at := 0,
                        action_nonce := wrapping_add1 e2.action_nonce }
    ⟨none, e3, []⟩

/-- `withdraw_subscription_fee` from `lib.rs`; `caller` is the signing
platform-authority account's key. -/
def withdraw_subscription_fee (e : EscrowAccount) (caller : Nat)
    (current_balance : Nat) (now : Int) (amount : Nat) : OpResult :=
  if e.is_paused then ⟨some .EscrowPaused, e, []⟩
  else if amount = 0 then ⟨some .InvalidAmount, e, []⟩
  else if MAX_SUBSCRIPTION_FEE < amount then ⟨some .AmountTooLarge, e, []⟩
  else if caller ≠ e.platform_authority then ⟨some .UnauthorizedPlatform, e, []⟩
  else if ¬ e.is_platform_authority_mature now then
    ⟨some .PlatformAuthorityTooNew, e, []⟩
  else if current_balance < amount then ⟨some .InsufficientBalance, e, []⟩
  else
    match checked_add e.total_fees_paid amount with
    | none => ⟨some .MathOverflow, e, []⟩
    | some tf =>
      ⟨none,
        { e with total_fees_paid := tf, action_nonce := wrapping_add1 e.action_nonce },
        [.transferFromEscrow caller amount]⟩

/-- `withdraw_for_trade` from `lib.rs`; `caller` is the signing
trading-authority account's key. -/
def withdraw_for_trade (e : EscrowAccount) (caller : Nat)
    (current_balance : Nat) (now : Int) (amount : Nat) : OpResult :=
  if e.is_paused then ⟨some .EscrowPaused, e, []⟩
  else if amount = 0 then ⟨some .InvalidAmount, e, []⟩
  else if MAX_TRANSACTION_AMOUNT < amount then ⟨some .AmountTooLarge, e, []⟩
  else if caller ≠ e.trading_authority then ⟨some .UnauthorizedTrading, e, []⟩
  else if ¬ e.is_trading_authority_mature now then
    ⟨some .TradingAuthorityTooNew, e, []⟩
  else if current_balance < amount then ⟨some .InsufficientBalance, e, []⟩
  else
    match checked_add e.total_traded amount with
    | none => ⟨some .MathOverflow, e, []⟩
    | some tt =>
      ⟨none,
        { e with total_traded := tt, action_nonce := wrapping_add1 e.action_nonce },
        [.transferFromEscrow caller amount]⟩

/-- `withdraw_token` from `lib.rs` (owner withdrawal). -/
def withdraw_token (e : EscrowAccount) (current_balance : Nat) (now : Int)
    (amount : Nat) : OpResult :=
  if e.is_paused then ⟨some .EscrowPaused, e, []⟩
  else if e.has_active_authority then ⟨some .EscrowStillActive, e, []⟩
  else if amount = 0 then ⟨some .InvalidAmount, e, []⟩
  else if current_balance < amount then ⟨some .InsufficientBalance, e, []⟩
  else
    match checked_add e.total_withdrawn amount with
    | none => ⟨some .MathOverflow, e, []⟩
    | some tw =>
      ⟨none,
        { e with total_withdrawn := tw, action_nonce := wrapping_add1 e.action_nonce },
        [.transferFromEscrow e.user amount]⟩

/-- `emergency_withdraw` from `lib.rs` (owner, paused state only). -/
def emergency_withdraw (e : EscrowAccount) (current_balance : Nat)
    (amount : Nat) : OpResult :=
  if ¬ e.is_paused then ⟨some .EscrowNotPaused, e, []⟩
  else if e.has_active_authority then ⟨some .EscrowStillActive, e, []⟩
  else if amount = 0 then ⟨some .InvalidAmount, e, []⟩
  else if current_balance < amount then ⟨some .InsufficientBalance, e, []⟩
  else
    match checked_add e.total_withdrawn amount with
    | none => ⟨some .MathOverflow, e, []⟩
    | some tw =>
      ⟨none,
        { e with total_withdrawn := tw, action_nonce := wrapping_add1 e.action_nonce },
        [.transferFromEscrow e.user amount]⟩

/-- `pause_escrow` from `lib.rs`: no precondition checks. -/
def pause_escrow (e : EscrowAccount) (now : Int) : OpResult :=
  let e1 := e.set_paused true now
  ⟨none, { e1 with action_nonce := wrapping_add1 e1.action_nonce }, []⟩

/-- `unpause_escrow` from `lib.rs`: gated only on the cooldown. -/
def unpause_escrow (e : EscrowAccount) (now : Int) : OpResult :=
  if ¬ e.can_unpause now then ⟨some .CooldownNotElapsed, e, []⟩
  else
    let e1 := e.set_paused false now
    ⟨none, { e1 with action_nonce := wrapping_add1 e1.action_nonce }, []⟩

/-- `set_max_lifetime` from `lib.rs`. -/
def set_max_lifetime (e : EscrowAccount) (max_lifetime_seconds : Int) : OpResult :=
  if max_lifetime_seconds < 0 then ⟨some .InvalidLifetime, e, []⟩
  else
    ⟨none,
      { e with max_lifetime := max_lifetime_seconds,
               action_nonce := wrapping_add1 e.action_nonce },
      []⟩

/-- `close_escrow` from `lib.rs`: read-only checks, then requests
closure of the token sub-account (the record itself is reclaimed by the
runtime's `close = user` constraint). -/
def close_escrow (e : EscrowAccount) (current_balance : Nat)
    (token_account_lamports : Nat) : OpResult :=
  if e.is_paused then ⟨some .EscrowPaused, e, []⟩
  else if e.has_active_authority then ⟨some .EscrowStillActive, e, []⟩
  else if DUST_THRESHOLD < current_balance then ⟨some .EscrowNotEmpty, e, []⟩
  else if token_account_lamports < MIN_RENT_EXEMPT_LAMPORTS then
    ⟨some .RentNotRecovered, e, []⟩
  else ⟨none, e, [.closeTokenAccount]⟩

/-- One invocation of a record-mutating instruction, bundling the
runtime-supplied values each handler reads.  `close_escrow` is kept
separate because it destroys the record rather than stepping it. -/
inductive Op where
  | deposit (current_balance : Nat) (now : Int) (amount : Nat)
  | delegatePlatform (now : Int) (authority : Nat)
  | delegateTrading (now : Int) (authority : Nat)
  | revokePlatform
  | revokeTrading
  | withdrawFee (caller current_balance : Nat) (now : Int) (amount : Nat)
  | withdrawTrade (caller current_balance : Nat) (now : Int) (amount : Nat)
  | withdrawOwner (current_balance : Nat) (now : Int) (amount : Nat)
  | emergency (current_balance : Nat) (amount : Nat)
  | pause (now : Int)
  | unpause (now : Int)
  | setLifetime (seconds : Int)
deriving Repr, DecidableEq

/-- Dispatch an operation to its handler. -/
def runOp (e : EscrowAccount) : Op → OpResult
  | .deposit c now a => deposit_token e c now a
  | .delegatePlatform now auth => delegate_platform_authority e now auth
  | .delegateTrading now auth => delegate_trading_authority e now auth
  | .revokePlatform => revoke_platform_authority e
  | .revokeTrading => revoke_trading_authority e
  | .withdrawFee caller c now a => withdraw_subscription_fee e caller c now a
  | .withdrawTrade caller c now a => withdraw_for_trade e caller c now a
  | .withdrawOwner c now a => withdraw_token e c now a
  | .emergency c a => emergency_withdraw e c a
  | .pause now => pause_escrow e now
  | .unpause now => unpause_escrow e now
  | .setLifetime s => set_max_lifetime e s

/-- Run a sequence of operations, requiring every one to succeed. -/
def runOps (e : EscrowAccount) : List Op → Option EscrowAccount
  | [] => some e
  | o :: rest =>
    if (runOp e o).err = none then runOps (runOp e o).escrow rest else none

/-- Record states reachable from initialization by successful
operations. -/
inductive Reachable : EscrowAccount → Prop where
  | init (user_key token_mint_key mint_decimals bump max_balance : Nat)
      (now : Int) (e : EscrowAccount) :
      initialize_escrow user_key token_mint_key mint_decimals bump max_balance now
        = .ok e → Reachable e
  | step (e : EscrowAccount) (o : Op) : Reachable e →
      (runOp e o).err = none → Reachable (runOp e o).escrow

/-- The structural invariant maintained by every operation: the flag
byte uses only the three low bits, each active flag mirrors
non-nullness of its authority identity, and the balance ceiling is a
positive value no larger than the absolute maximum. -/
def StateInv (e : EscrowAccount) : Prop :=
  e.flags < 8 ∧
  (e.is_platform_active = true ↔ e.platform_authority ≠ 0) ∧
  (e.is_trading_active = true ↔ e.trading_authority ≠ 0) ∧
  0 < e.max_balance ∧ e.max_balance ≤ MAX_ALLOWED_BALANCE

/-- Bit-level facts about the flag byte used by the invariant proof:
setting one flag leaves the other two bits alone, clearing likewise,
and the byte stays below 8. -/
lemma flag_facts (f : Nat) (h : f < 8) :
    (f ||| FLAG_PLATFORM_ACTIVE) < 8 ∧
    (f ||| FLAG_TRADING_ACTIVE) < 8 ∧
    (f ||| FLAG_PAUSED) < 8 ∧
    f &&& (255 ^^^ FLAG_PLATFORM_ACTIVE) < 8 ∧
    f &&& (255 ^^^ FLAG_TRADING_ACTIVE) < 8 ∧
    f &&& (255 ^^^ FLAG_PAUSED) < 8 ∧
    ((f ||| FLAG_PLATFORM_ACTIVE) &&& FLAG_PLATFORM_ACTIVE ≠ 0) ∧
    ((f ||| FLAG_PLATFORM_ACTIVE) &&& FLAG_TRADING_ACTIVE = f &&& FLAG_TRADING_ACTIVE) ∧
    ((f ||| FLAG_PLATFORM_ACTIVE) &&& FLAG_PAUSED = f &&& FLAG_PAUSED) ∧
    ((f ||| FLAG_TRADING_ACTIVE) &&& FLAG_TRADING_ACTIVE ≠ 0) ∧
    ((f ||| FLAG_TRADING_ACTIVE) &&& FLAG_PLATFORM_ACTIVE = f &&& FLAG_PLATFORM_ACTIVE) ∧
    ((f ||| FLAG_TRADING_ACTIVE) &&& FLAG_PAUSED = f &&& FLAG_PAUSED) ∧
    ((f ||| FLAG_PAUSED) &&& FLAG_PAUSED ≠ 0) ∧
    ((f ||| FLAG_PAUSED) &&& FLAG_PLATFORM_ACTIVE = f &&& FLAG_PLATFORM_ACTIVE) ∧
    ((f ||| FLAG_PAUSED) &&& FLAG_TRADING_ACTIVE = f &&& FLAG_TRADING_ACTIVE) ∧
    ((f &&& (255 ^^^ FLAG_PLATFORM_ACTIVE)) &&& FLAG_PLATFORM_ACTIVE = 0) ∧
    ((f &&& (255 ^^^ FLAG_PLATFORM_ACTIVE)) &&& FLAG_TRADING_ACTIVE = f &&& FLAG_TRADING_ACTIVE) ∧
    ((f &&& (255 ^^^ FLAG_PLATFORM_ACTIVE)) &&& FLAG_PAUSED = f &&& FLAG_PAUSED) ∧
    ((f &&& (255 ^^^ FLAG_TRADING_ACTIVE)) &&& FLAG_TRADING_ACTIVE = 0) ∧
    ((f &&& (255 ^^^ FLAG_TRADING_ACTIVE)) &&& FLAG_PLATFORM_ACTIVE = f &&& FLAG_PLATFORM_ACTIVE) ∧
    ((f &&& (255 ^^^ FLAG_TRADING_ACTIVE)) &&& FLAG_PAUSED = f &&& FLAG_PAUSED) ∧
    ((f &&& (255 ^^^ FLAG_PAUSED)) &&& FLAG_PAUSED = 0) ∧
    ((f &&& (255 ^^^ FLAG_PAUSED)) &&& FLAG_PLATFORM_ACTIVE = f &&& FLAG_PLATFORM_ACTIVE) ∧
    ((f &&& (255 ^^^ FLAG_PAUSED)) &&& FLAG_TRADING_ACTIVE = f &&& FLAG_TRADING_ACTIVE) := by
  interval_cases f <;> decide

/-- Inversion for overflow-checked addition succeeding. -/
lemma checked_add_eq_some {a b c : Nat} :
    checked_add a b = some c ↔ a + b < U64LIMIT ∧ c = a + b := by
  unfold checked_add
  split <;> simp_all
  omega

/-- Successful deposits add the amount to `total_deposited`, bump the
nonce, request one inbound transfer, and imply every check passed. -/
lemma deposit_ok_shape (e : EscrowAccount) (c : Nat) (now : Int) (a : Nat)
    (h : (deposit_token e c now a).err = none) :
    (deposit_token e c now a).escrow =
      { e with total_deposited := e.total_deposited + a,
               action_nonce := wrapping_add1 e.action_nonce } ∧
    (deposit_token e c now a).actions = [.transferToEscrow a] ∧
    e.is_paused = false ∧ a ≠ 0 ∧ e.is_expired now = false ∧
    c + a < U64LIMIT ∧ ¬ (0 < e.max_balance ∧ e.max_balance < c + a) := by
  unfold deposit_token at h ⊢
  repeat' split
  all_goals simp_all [checked_add_eq_some]

/-- Successful platform delegation records the new authority, sets its
flag, stamps the activation time, bumps the nonce, and implies every
check passed. -/
lemma delegate_platform_ok_shape (e : EscrowAccount) (now : Int) (auth : Nat)
    (h : (delegate_platform_authority e now auth).err = none) :
    (delegate_platform_authority e now auth).escrow =
      { e with platform_authority := auth,
               flags := e.flags ||| FLAG_PLATFORM_ACTIVE,
               platform_activated_at := now,
               action_nonce := wrapping_add1 e.action_nonce } ∧
    (delegate_platform_authority e now auth).actions = [] ∧
    e.is_paused = false ∧ auth ≠ 0 ∧ e.platform_authority = 0 ∧
    e.is_expired now = false := by
  unfold delegate_platform_authority at h ⊢
  repeat' split
  all_goals simp_all [EscrowAccount.set_platform_active]

/-- Successful trading delegation, analogously. -/
lemma delegate_trading_ok_shape (e : EscrowAccount) (now : Int) (auth : Nat)
    (h : (delegate_trading_authority e now auth).err = none) :
    (delegate_trading_authority e now auth).escrow =
      { e with trading_authority := auth,
               flags := e.flags ||| FLAG_TRADING_ACTIVE,
               trading_activated_at := now,
               action_nonce := wrapping_add1 e.action_nonce } ∧
    (delegate_trading_authority e now auth).actions = [] ∧
    e.is_paused = false ∧ auth ≠ 0 ∧ e.trading_authority = 0 ∧
    e.is_expired now = false := by
  unfold delegate_trading_authority at h ⊢
  repeat' split
  all_goals simp_all [EscrowAccount.set_trading_active]

/-- Successful platform revocation clears the authority, its flag and
activation time, and bumps the nonce. -/
lemma revoke_platform_ok_shape (e : EscrowAccount)
    (h : (revoke_platform_authority e).err = none) :
    (revoke_platform_authority e).escrow =
      { e with platform_authority := 0,
               flags := e.flags &&& (255 ^^^ FLAG_PLATFORM_ACTIVE),
               platform_activated_at := 0,
               action_nonce := wrapping_add1 e.action_nonce } ∧
    (revoke_platform_authority e).actions = [] ∧ e.is_paused = false := by
  unfold revoke_platform_authority at h ⊢
  repeat' split
  all_goals simp_all [EscrowAccount.set_platform_active]

/-- Successful trading revocation, analogously. -/
lemma revoke_trading_ok_shape (e : EscrowAccount)
    (h : (revoke_trading_authority e).err = none) :
    (revoke_trading_authority e).escrow =
      { e with trading_authority := 0,
               flags := e.flags &&& (255 ^^^ FLAG_TRADING_ACTIVE),
               trading_activated_at := 0,
               action_nonce := wrapping_add1 e.action_nonce } ∧
    (revoke_trading_authority e).actions = [] ∧ e.is_paused = false := by
  unfold revoke_trading_authority at h ⊢
  repeat' split
  all_goals simp_all [EscrowAccount.set_trading_active]

/-- Successful fee withdrawal adds the amount to `total_fees_paid`,
bumps the nonce, requests one transfer to the platform authority, and
implies every check passed. -/
lemma fee_ok_shape (e : EscrowAccount) (caller c : Nat) (now : Int) (a : Nat)
    (h : (withdraw_subscription_fee e caller c now a).err = none) :
    (withdraw_subscription_fee e caller c now a).escrow =
      { e with total_fees_paid := e.total_fees_paid + a,
               action_nonce := wrapping_add1 e.action_nonce } ∧
    (withdraw_subscription_fee e caller c now a).actions =
      [.transferFromEscrow caller a] ∧
    e.is_paused = false ∧ a ≠ 0 ∧ a ≤ MAX_SUBSCRIPTION_FEE ∧
    caller = e.platform_authority ∧
    e.is_platform_authority_mature now = true ∧ a ≤ c := by
  unfold withdraw_subscription_fee at h ⊢
  repeat' split
  all_goals simp_all [checked_add_eq_some]

/-- Successful trade withdrawal, analogously on `total_traded`. -/
lemma trade_ok_shape (e : EscrowAccount) (caller c : Nat) (now : Int) (a : Nat)
    (h : (withdraw_for_trade e caller c now a).err = none) :
    (withdraw_for_trade e caller c now a).escrow =
      { e with total_traded := e.total_traded + a,
               action_nonce := wrapping_add1 e.action_nonce } ∧
    (withdraw_for_trade e caller c now a).actions =
      [.transferFromEscrow caller a] ∧
    e.is_paused = false ∧ a ≠ 0 ∧ a ≤ MAX_TRANSACTION_AMOUNT ∧
    caller = e.trading_authority ∧
    e.is_trading_authority_mature now = true ∧ a ≤ c := by
  unfold withdraw_for_trade at h ⊢
  repeat' split
  all_goals simp_all [checked_add_eq_some]

/-- Successful owner withdrawal adds the amount to `total_withdrawn`,
bumps the nonce, requests one transfer to the owner, and implies every
check passed. -/
lemma withdraw_ok_shape (e : EscrowAccount) (c : Nat) (now : Int) (a : Nat)
    (h : (withdraw_token e c now a).err = none) :
    (withdraw_token e c now a).escrow =
      { e with total_withdrawn := e.total_withdrawn + a,
               action_nonce := wrapping_add1 e.action_nonce } ∧
    (withdraw_token e c now a).actions = [.transferFromEscrow e.user a] ∧
    e.is_paused = false ∧ e.has_active_authority = false ∧ a ≠ 0 ∧ a ≤ c := by
  unfold withdraw_token at h ⊢
  repeat' split
  all_goals simp_all [checked_add_eq_some]

/-- Successful emergency withdrawal, analogously, and requires the
paused state. -/
lemma emergency_ok_shape (e : EscrowAccount) (c a : Nat)
    (h : (emergency_withdraw e c a).err = none) :
    (emergency_withdraw e c a).escrow =
      { e with total_withdrawn := e.total_withdrawn + a,
               action_nonce := wrapping_add1 e.action_nonce } ∧
    (emergency_withdraw e c a).actions = [.transferFromEscrow e.user a] ∧
    e.is_paused = true ∧ e.has_active_authority = false ∧ a ≠ 0 ∧ a ≤ c := by
  unfold emergency_withdraw at h ⊢
  repeat' split
  all_goals simp_all [checked_add_eq_some]

/-- `pause_escrow` always succeeds: it sets the paused bit, stamps
`last_paused_at` with the current time, and bumps the nonce. -/
lemma pause_shape (e : EscrowAccount) (now : Int) :
    pause_escrow e now =
      ⟨none,
        { e with flags := e.flags ||| FLAG_PAUSED,
                 last_paused_at := now,
                 action_nonce := wrapping_add1 e.action_nonce },
        []⟩ := by
  simp [pause_escrow, EscrowAccount.set_paused]

/-- Successful unpausing clears the paused bit, leaves
`last_paused_at` alone, and bumps the nonce. -/
lemma unpause_ok_shape (e : EscrowAccount) (now : Int)
    (h : (unpause_escrow e now).err = none) :
    (unpause_escrow e now).escrow =
      { e with flags := e.flags &&& (255 ^^^ FLAG_PAUSED),
               action_nonce := wrapping_add1 e.action_nonce } ∧
    (unpause_escrow e now).actions = [] ∧ e.can_unpause now = true := by
  unfold unpause_escrow at h ⊢
  repeat' split
  all_goals simp_all [EscrowAccount.set_paused]

/-- Successful lifetime update stores the new value and bumps the
nonce; the requested duration is non-negative. -/
lemma set_lifetime_ok_shape (e : EscrowAccount) (s : Int)
    (h : (set_max_lifetime e s).err = none) :
    (set_max_lifetime e s).escrow =
      { e with max_lifetime := s,
               action_nonce := wrapping_add1 e.action_nonce } ∧
    (set_max_lifetime e s).actions = [] ∧ 0 ≤ s := by
  unfold set_max_lifetime at h ⊢
  repeat' split
  all_goals simp_all

/-- Successful closure leaves the record untouched (the runtime then
reclaims it), requests closure of the token sub-account, and implies
every check passed. -/
lemma close_ok_shape (e : EscrowAccount) (c lam : Nat)
    (h : (close_escrow e c lam).err = none) :
    (close_escrow e c lam).escrow = e ∧
    (close_escrow e c lam).actions = [.closeTokenAccount] ∧
    e.is_paused = false ∧ e.has_active_authority = false ∧
    c ≤ DUST_THRESHOLD ∧ MIN_RENT_EXEMPT_LAMPORTS ≤ lam := by
  unfold close_escrow at h ⊢
  repeat' split
  all_goals simp_all

/-- A failing deposit leaves the record as it was and requests
nothing. -/
lemma deposit_err_frame (e : EscrowAccount) (c : Nat) (now : Int) (a : Nat)
    (h : (deposit_token e c now a).err.isSome) :
    (deposit_token e c now a).escrow = e ∧
    (deposit_token e c now a).actions = [] := by
  unfold deposit_token at h ⊢
  repeat' split
  all_goals simp_all

/-- A failing platform delegation leaves the record as it was. -/
lemma delegate_platform_err_frame (e : EscrowAccount) (now : Int) (auth : Nat)
    (h : (delegate_platform_authority e now auth).err.isSome) :
    (delegate_platform_authority e now auth).escrow = e ∧
    (delegate_platform_authority e now auth).actions = [] := by
  unfold delegate_platform_authority at h ⊢
  repeat' split
  all_goals simp_all

/-- A failing trading delegation leaves the record as it was. -/
lemma delegate_trading_err_frame (e : EscrowAccount) (now : Int) (auth : Nat)
    (h : (delegate_trading_authority e now auth).err.isSome) :
    (delegate_trading_authority e now auth).escrow = e ∧
    (delegate_trading_authority e now auth).actions = [] := by
  unfold delegate_trading_authority at h ⊢
  repeat' split
  all_goals simp_all

/-- A failing platform revocation leaves the record as it was. -/
lemma revoke_platform_err_frame (e : EscrowAccount)
    (h : (revoke_platform_authority e).err.isSome) :
    (revoke_platform_authority e).escrow = e ∧
    (revoke_platform_authority e).actions = [] := by
  unfold revoke_platform_authority at h ⊢
  repeat' split
  all_goals simp_all

/-- A failing trading revocation leaves the record as it was. -/
lemma revoke_trading_err_frame (e : EscrowAccount)
    (h : (revoke_trading_authority e).err.isSome) :
    (revoke_trading_authority e).escrow = e ∧
    (revoke_trading_authority e).actions = [] := by
  unfold revoke_trading_authority at h ⊢
  repeat' split
  all_goals simp_all

/-- A failing fee withdrawal leaves the record as it was. -/
lemma fee_err_frame (e : EscrowAccount) (caller c : Nat) (now : Int) (a : Nat)
    (h : (withdraw_subscription_fee e caller c now a).err.isSome) :
    (withdraw_subscription_fee e caller c now a).escrow = e ∧
    (withdraw_subscription_fee e caller c now a).actions = [] := by
  unfold withdraw_subscription_fee at h ⊢
  repeat' split
  all_goals simp_all

/-- A failing trade withdrawal leaves the record as it was. -/
lemma trade_err_frame (e : EscrowAccount) (caller c : Nat) (now : Int) (a : Nat)
    (h : (withdraw_for_trade e caller c now a).err.isSome) :
    (withdraw_for_trade e caller c now a).escrow = e ∧
    (withdraw_for_trade e caller c now a).actions = [] := by
  unfold withdraw_for_trade at h ⊢
  repeat' split
  all_goals simp_all

/-- A failing owner withdrawal leaves the record as it was. -/
lemma withdraw_err_frame (e : EscrowAccount) (c : Nat) (now : Int) (a : Nat)
    (h : (withdraw_token e c now a).err.isSome) :
    (withdraw_token e c now a).escrow = e ∧
    (withdraw_token e c now a).actions = [] := by
  unfold withdraw_token at h ⊢
  repeat' split
  all_goals simp_all

/-- A failing emergency withdrawal leaves the record as it was. -/
lemma emergency_err_frame (e : EscrowAccount) (c a : Nat)
    (h : (emergency_withdraw e c a).err.isSome) :
    (emergency_withdraw e c a).escrow = e ∧
    (emergency_withdraw e c a).actions = [] := by
  unfold emergency_withdraw at h ⊢
  repeat' split
  all_goals simp_all

/-- A failing unpause leaves the record as it was. -/
lemma unpause_err_frame (e : EscrowAccount) (now : Int)
    (h : (unpause_escrow e now).err.isSome) :
    (unpause_escrow e now).escrow = e ∧
    (unpause_escrow e now).actions = [] := by
  unfold unpause_escrow at h ⊢
  repeat' split
  all_goals simp_all

/-- A failing lifetime update leaves the record as it was. -/
lemma set_lifetime_err_frame (e : EscrowAccount) (s : Int)
    (h : (set_max_lifetime e s).err.isSome) :
    (set_max_lifetime e s).escrow = e ∧
    (set_max_lifetime e s).actions = [] := by
  unfold set_max_lifetime at h ⊢
  repeat' split
  all_goals simp_all

/-- Any failing operation leaves the record exactly as it was and
requests no external interaction. -/
lemma runOp_err_frame (e : EscrowAccount) (o : Op)
    (h : (runOp e o).err.isSome) :
    (runOp e o).escrow = e ∧ (runOp e o).actions = [] := by
  cases o with
  | deposit c now a => exact deposit_err_frame e c now a h
  | delegatePlatform now auth => exact delegate_platform_err_frame e now auth h
  | delegateTrading now auth => exact delegate_trading_err_frame e now auth h
  | revokePlatform => exact revoke_platform_err_frame e h
  | revokeTrading => exact revoke_trading_err_frame e h
  | withdrawFee caller c now a => exact fee_err_frame e caller c now a h
  | withdrawTrade caller c now a => exact trade_err_frame e caller c now a h
  | withdrawOwner c now a => exact withdraw_err_frame e c now a h
  | emergency c a => exact emergency_err_frame e c a h
  | pause now => exact absurd h (by rw [show runOp e (.pause now) = pause_escrow e now from rfl, pause_shape]; simp)
  | unpause now => exact unpause_err_frame e now h
  | setLifetime s => exact set_lifetime_err_frame e s h

/-- A failing closure also leaves the record as it was and requests
nothing. -/
lemma close_err_frame (e : EscrowAccount) (c lam : Nat)
    (h : (close_escrow e c lam).err.isSome) :
    (close_escrow e c lam).escrow = e ∧ (close_escrow e c lam).actions = [] := by
  unfold close_escrow at h ⊢
  repeat' split
  all_goals simp_all

/-- Every successful operation advances the nonce by exactly one,
modulo `2^64`. -/
lemma runOp_nonce (e : EscrowAccount) (o : Op)
    (h : (runOp e o).err = none) :
    (runOp e o).escrow.action_nonce = (e.action_nonce + 1) % U64LIMIT := by
  cases o with
  | deposit c now a =>
      rw [show runOp e (.deposit c now a) = deposit_token e c now a from rfl] at h ⊢
      rw [(deposit_ok_shape e c now a h).1]; rfl
  | delegatePlatform now auth =>
      rw [show runOp e (.delegatePlatform now auth)
            = delegate_platform_authority e now auth from rfl] at h ⊢
      rw [(delegate_platform_ok_shape e now auth h).1]; rfl
  | delegateTrading now auth =>
      rw [show runOp e (.delegateTrading now auth)
            = delegate_trading_authority e now auth from rfl] at h ⊢
      rw [(delegate_trading_ok_shape e now auth h).1]; rfl
  | revokePlatform =>
      rw [show runOp e .revokePlatform = revoke_platform_authority e from rfl] at h ⊢
      rw [(revoke_platform_ok_shape e h).1]; rfl
  | revokeTrading =>
      rw [show runOp e .revokeTrading = revoke_trading_authority e from rfl] at h ⊢
      rw [(revoke_trading_ok_shape e h).1]; rfl
  | withdrawFee caller c now a =>
      rw [show runOp e (.withdrawFee caller c now a)
            = withdraw_subscription_fee e caller c now a from rfl] at h ⊢
      rw [(fee_ok_shape e caller c now a h).1]; rfl
  | withdrawTrade caller c now a =>
      rw [show runOp e (.withdrawTrade caller c now a)
            = withdraw_for_trade e caller c now a from rfl] at h ⊢
      rw [(trade_ok_shape e caller c now a h).1]; rfl
  | withdrawOwner c now a =>
      rw [show runOp e (.withdrawOwner c now a)
            = withdraw_token e c now a from rfl] at h ⊢
      rw [(withdraw_ok_shape e c now a h).1]; rfl
  | emergency c a =>
      rw [show runOp e (.emergency c a) = emergency_withdraw e c a from rfl] at h ⊢
      rw [(emergency_ok_shape e c a h).1]; rfl
  | pause now =>
      rw [show runOp e (.pause now) = pause_escrow e now from rfl]
      rw [pause_shape]; rfl
  | unpause now =>
      rw [show runOp e (.unpause now) = unpause_escrow e now from rfl] at h ⊢
      rw [(unpause_ok_shape e now h).1]; rfl
  | setLifetime s =>
      rw [show runOp e (.setLifetime s) = set_max_lifetime e s from rfl] at h ⊢
      rw [(set_lifetime_ok_shape e s h).1]; rfl

/-- Initialization only produces records satisfying the structural
invariant. -/
lemma init_inv (user_key token_mint_key mint_decimals bump max_balance : Nat)
    (now : Int) (e : EscrowAccount)
    (h : initialize_escrow user_key token_mint_key mint_decimals bump
          max_balance now = .ok e) :
    StateInv e := by
  unfold initialize_escrow at h
  split at h
  · exact absurd h (by simp)
  split at h
  · exact absurd h (by simp)
  rename_i hmb hdec
  injection h with h
  subst h
  simp only [not_and, not_lt] at hmb
  refine ⟨by norm_num,
    by simp [EscrowAccount.is_platform_active, FLAG_PLATFORM_ACTIVE],
    by simp [EscrowAccount.is_trading_active, FLAG_TRADING_ACTIVE], ?_, ?_⟩
  · show 0 < if max_balance = 0 then DEFAULT_MAX_BALANCE else max_balance
    split
    · decide
    · omega
  · show (if max_balance = 0 then DEFAULT_MAX_BALANCE else max_balance)
        ≤ MAX_ALLOWED_BALANCE
    split
    · decide
    · rename_i h0
      exact hmb (Nat.pos_of_ne_zero h0)

/-- Every successful operation preserves the structural invariant. -/
lemma step_inv (e : EscrowAccount) (o : Op) (hi : StateInv e)
    (h : (runOp e o).err = none) : StateInv (runOp e o).escrow := by
  obtain ⟨hf, hp, ht, hb, hba⟩ := hi
  have hff := flag_facts e.flags hf
  cases o with
  | deposit c now a =>
      rw [show runOp e (.deposit c now a) = deposit_token e c now a from rfl] at h ⊢
      rw [(deposit_ok_shape e c now a h).1]
      exact ⟨hf, hp, ht, hb, hba⟩
  | delegatePlatform now auth =>
      rw [show runOp e (.delegatePlatform now auth)
            = delegate_platform_authority e now auth from rfl] at h ⊢
      obtain ⟨hs, -, -, ha, -, -⟩ := delegate_platform_ok_shape e now auth h
      rw [hs]
      refine ⟨hff.1, ?_, ?_, hb, hba⟩
      · simp [EscrowAccount.is_platform_active, hff.2.2.2.2.2.2.1, ha]
      · simpa [EscrowAccount.is_trading_active, hff.2.2.2.2.2.2.2.1] using ht
  | delegateTrading now auth =>
      rw [show runOp e (.delegateTrading now auth)
            = delegate_trading_authority e now auth from rfl] at h ⊢
      obtain ⟨hs, -, -, ha, -, -⟩ := delegate_trading_ok_shape e now auth h
      rw [hs]
      refine ⟨hff.2.1, ?_, ?_, hb, hba⟩
      · simpa [EscrowAccount.is_platform_active,
          hff.2.2.2.2.2.2.2.2.2.2.1] using hp
      · simp [EscrowAccount.is_trading_active, hff.2.2.2.2.2.2.2.2.2.1, ha]
  | revokePlatform =>
      rw [show runOp e .revokePlatform = revoke_platform_authority e from rfl] at h ⊢
      obtain ⟨hs, -, -⟩ := revoke_platform_ok_shape e h
      rw [hs]
      refine ⟨hff.2.2.2.1, ?_, ?_, hb, hba⟩
      · simp [EscrowAccount.is_platform_active,
          hff.2.2.2.2.2.2.2.2.2.2.2.2.2.2.2.1]
      · simpa [EscrowAccount.is_trading_active,
          hff.2.2.2.2.2.2.2.2.2.2.2.2.2.2.2.2.1] using ht
  | revokeTrading =>
      rw [show runOp e .revokeTrading = revoke_trading_authority e from rfl] at h ⊢
      obtain ⟨hs, -, -⟩ := revoke_trading_ok_shape e h
      rw [hs]
      refine ⟨hff.2.2.2.2.1, ?_, ?_, hb, hba⟩
      · simpa [EscrowAccount.is_platform_active,
          hff.2.2.2.2.2.2.2.2.2.2.2.2.2.2.2.2.2.2.2.1] using hp
      · simp [EscrowAccount.is_trading_active,
          hff.2.2.2.2.2.2.2.2.2.2.2.2.2.2.2.2.2.2.1]
  | withdrawFee caller c now a =>
      rw [show runOp e (.withdrawFee caller c now a)
            = withdraw_subscription_fee e caller c now a from rfl] at h ⊢
      rw [(fee_ok_shape e caller c now a h).1]
      exact ⟨hf, hp, ht, hb, hba⟩
  | withdrawTrade caller c now a =>
      rw [show runOp e (.withdrawTrade caller c now a)
            = withdraw_for_trade e caller c now a from rfl] at h ⊢
      rw [(trade_ok_shape e caller c now a h).1]
      exact ⟨hf, hp, ht, hb, hba⟩
  | withdrawOwner c now a =>
      rw [show runOp e (.withdrawOwner c now a)
            = withdraw_token e c now a from rfl] at h ⊢
      rw [(withdraw_ok_shape e c now a h).1]
      exact ⟨hf, hp, ht, hb, hba⟩
  | emergency c a =>
      rw [show runOp e (.emergency c a) = emergency_withdraw e c a from rfl] at h ⊢
      rw [(emergency_ok_shape e c a h).1]
      exact ⟨hf, hp, ht, hb, hba⟩
  | pause now =>
      rw [show runOp e (.pause now) = pause_escrow e now from rfl]
      rw [pause_shape]
      refine ⟨hff.2.2.1, ?_, ?_, hb, hba⟩
      · simpa [EscrowAccount.is_platform_active,
          hff.2.2.2.2.2.2.2.2.2.2.2.2.2.1] using hp
      · simpa [EscrowAccount.is_trading_active,
          hff.2.2.2.2.2.2.2.2.2.2.2.2.2.2.1] using ht
  | unpause now =>
      rw [show runOp e (.unpause now) = unpause_escrow e now from rfl] at h ⊢
      obtain ⟨hs, -, -⟩ := unpause_ok_shape e now h
      rw [hs]
      refine ⟨hff.2.2.2.2.2.1, ?_, ?_, hb, hba⟩
      · simpa [EscrowAccount.is_platform_active,
          hff.2.2.2.2.2.2.2.2.2.2.2.2.2.2.2.2.2.2.2.2.2.2.1] using hp
      · simpa [EscrowAccount.is_trading_active,
          hff.2.2.2.2.2.2.2.2.2.2.2.2.2.2.2.2.2.2.2.2.2.2.2] using ht
  | setLifetime s =>
      rw [show runOp e (.setLifetime s) = set_max_lifetime e s from rfl] at h ⊢
      rw [(set_lifetime_ok_shape e s h).1]
      exact ⟨hf, hp, ht, hb, hba⟩

/-- Every reachable record satisfies the structural invariant. -/
lemma reachable_inv (e : EscrowAccount) (h : Reachable e) : StateInv e := by
  induction h with
  | init u m d b mb now e h => exact init_inv u m d b mb now e h
  | step e o hr herr ih => exact step_inv e o ih herr

/-- A concrete freshly initialized record: owner key 1, mint key 2,
6-decimal mint, bump 255, default ceiling, created at time 1000. -/
def sampleInit : EscrowAccount :=
  { user := 1
    platform_authority := 0
    trading_authority := 0
    token_mint := 2
    bump := 255
    flags := 0
    created_at := 1000
    platform_activated_at := 0
    trading_activated_at := 0
    last_paused_at := 0
    action_nonce := 0
    total_deposited := 0
    total_withdrawn := 0
    total_fees_paid := 0
    total_traded := 0
    max_balance := DEFAULT_MAX_BALANCE
    max_lifetime := 0
    reserved := List.replicate 176 0 }

lemma sampleInit_reachable : Reachable sampleInit :=
  Reachable.init 1 2 6 255 0 1000 sampleInit (by rfl)

/-- `sampleInit` after the owner pauses it at time 1000. -/
def samplePaused : EscrowAccount :=
  { sampleInit with flags := 4, last_paused_at := 1000, action_nonce := 1 }

lemma samplePaused_reachable : Reachable samplePaused := by
  have h := Reachable.step sampleInit (.pause 1000) sampleInit_reachable (by rfl)
  have he : (runOp sampleInit (.pause 1000)).escrow = samplePaused := by rfl
  rwa [he] at h

/-- `sampleInit` after the owner delegates platform authority to key 7
at time 1000. -/
def sampleDelegated : EscrowAccount :=
  { sampleInit with platform_authority := 7, flags := 1,
                    platform_activated_at := 1000, action_nonce := 1 }

lemma sampleDelegated_reachable : Reachable sampleDelegated := by
  have h := Reachable.step sampleInit (.delegatePlatform 1000 7)
    sampleInit_reachable (by rfl)
  have he : (runOp sampleInit (.delegatePlatform 1000 7)).escrow
      = sampleDelegated := by rfl
  rwa [he] at h

/-- The bound `2^64` as an explicit numeral. -/
lemma U64LIMIT_eq : U64LIMIT = 18446744073709551616 := by norm_num [U64LIMIT]

/-- The record obtained from `sampleInit` by `n + 1` successive pauses
at time 1000. -/
def pausedIter (n : Nat) : EscrowAccount :=
  { sampleInit with flags := 4, last_paused_at := 1000,
                    action_nonce := (n + 1) % U64LIMIT }

/-- Pausing an already-paused record succeeds again and again, so every
nonce value modulo `2^64` is reachable — including the wraparound. -/
lemma pause_iter_reachable (n : Nat) : Reachable (pausedIter n) := by
  induction n with
  | zero =>
      have h : pausedIter 0 = samplePaused := by
        unfold pausedIter samplePaused
        ext <;> simp
        decide
      rw [h]
      exact samplePaused_reachable
  | succ k ih =>
      have h := Reachable.step (pausedIter k) (.pause 1000) ih (by rfl)
      have he : (runOp (pausedIter k) (.pause 1000)).escrow = pausedIter (k + 1) := by
        rw [show runOp (pausedIter k) (.pause 1000)
              = pause_escrow (pausedIter k) 1000 from rfl, pause_shape]
        unfold pausedIter
        ext <;> simp [wrapping_add1]
        all_goals decide
      rwa [he] at h

/-- The nonce evolves as addition modulo `2^64` along any successful
operation sequence (started from a genuine `u64` nonce value). -/
lemma runOps_nonce (l : List Op) (e e' : EscrowAccount)
    (hn : e.action_nonce < U64LIMIT) (h : runOps e l = some e') :
    e'.action_nonce = (e.action_nonce + l.length) % U64LIMIT := by
  induction l generalizing e with
  | nil =>
      unfold runOps at h
      injection h with h
      subst h
      rw [List.length_nil, U64LIMIT_eq] at *
      omega
  | cons o rest ih =>
      unfold runOps at h
      split at h
      · rename_i hok
        have h1 := runOp_nonce e o hok
        have hn1 : (runOp e o).escrow.action_nonce < U64LIMIT := by
          rw [h1, U64LIMIT_eq]
          omega
        have h2 := ih (runOp e o).escrow hn1 h
        rw [h2, h1, List.length_cons, U64LIMIT_eq]
        omega
      · exact absurd h (by simp)

/-- Claim C1: whenever any operation (the twelve record-stepping
instructions or `close_escrow`) fails a precondition check and returns
an error, the escrow record is left completely unchanged — no field,
including the action nonce and the accumulators, is modified — and no
external transfer or closure is requested. -/
theorem checks_fail_leave_state_unchanged (e : EscrowAccount) (o : Op)
    (bal lam : Nat) :
    ((runOp e o).err.isSome →
      (runOp e o).escrow = e ∧ (runOp e o).actions = []) ∧
    ((close_escrow e bal lam).err.isSome →
      (close_escrow e bal lam).escrow = e ∧
      (close_escrow e bal lam).actions = []) :=
  ⟨fun h => runOp_err_frame e o h, fun h => close_err_frame e bal lam h⟩

/-- Witness for C1: a zero-amount deposit and an over-dust closure on
the sample record both fail, and the theorem yields that the record and
interaction list are untouched. -/
theorem checks_fail_leave_state_unchanged_witness :
    (runOp sampleInit (.deposit 0 1000 0)).err.isSome = true ∧
    (runOp sampleInit (.deposit 0 1000 0)).escrow = sampleInit ∧
    (runOp sampleInit (.deposit 0 1000 0)).actions = [] ∧
    (close_escrow sampleInit 100 0).err.isSome = true ∧
    (close_escrow sampleInit 100 0).escrow = sampleInit := by
  have h := checks_fail_leave_state_unchanged sampleInit (.deposit 0 1000 0) 100 0
  exact ⟨by decide, (h.1 (by decide)).1, (h.1 (by decide)).2, by decide,
    (h.2 (by decide)).1⟩

/-- Claim C3 (amended): on a paused record, depositToken, both delegate
operations, both revoke operations, withdrawSubscriptionFee,
withdrawForTrade, withdrawToken and closeEscrow fail with the
paused-state error and leave the record unchanged; but pauseEscrow and
setMaxLifetime are not gated on the paused flag — pauseEscrow always
succeeds (restamping the pause time), and setMaxLifetime succeeds for
any non-negative requested lifetime. -/
theorem paused_blocks_operations (e : EscrowAccount) (h : e.is_paused = true)
    (caller c bal lam auth : Nat) (now : Int) (a : Nat) (s : Int) :
    deposit_token e c now a = ⟨some .EscrowPaused, e, []⟩ ∧
    delegate_platform_authority e now auth = ⟨some .EscrowPaused, e, []⟩ ∧
    delegate_trading_authority e now auth = ⟨some .EscrowPaused, e, []⟩ ∧
    revoke_platform_authority e = ⟨some .EscrowPaused, e, []⟩ ∧
    revoke_trading_authority e = ⟨some .EscrowPaused, e, []⟩ ∧
    withdraw_subscription_fee e caller c now a = ⟨some .EscrowPaused, e, []⟩ ∧
    withdraw_for_trade e caller c now a = ⟨some .EscrowPaused, e, []⟩ ∧
    withdraw_token e c now a = ⟨some .EscrowPaused, e, []⟩ ∧
    close_escrow e bal lam = ⟨some .EscrowPaused, e, []⟩ ∧
    (pause_escrow e now).err = none ∧
    (0 ≤ s → (set_max_lifetime e s).err = none) := by
  refine ⟨?_, ?_, ?_, ?_, ?_, ?_, ?_, ?_, ?_, ?_, ?_⟩
  · unfold deposit_token
    rw [if_pos h]
  · unfold delegate_platform_authority
    rw [if_pos h]
  · unfold delegate_trading_authority
    rw [if_pos h]
  · unfold revoke_platform_authority
    rw [if_pos h]
  · unfold revoke_trading_authority
    rw [if_pos h]
  · unfold withdraw_subscription_fee
    rw [if_pos h]
  · unfold withdraw_for_trade
    rw [if_pos h]
  · unfold withdraw_token
    rw [if_pos h]
  · unfold close_escrow
    rw [if_pos h]
  · rw [pause_shape]
  · intro hs
    unfold set_max_lifetime
    rw [if_neg (by omega)]

/-- Counterexample for C3 as frozen: on a reachable paused record both
pauseEscrow and setMaxLifetime succeed instead of failing with the
paused-state error. -/
theorem paused_gating_cex :
    Reachable samplePaused ∧
    samplePaused.is_paused = true ∧
    (runOp samplePaused (.pause 2000)).err = none ∧
    (runOp samplePaused (.setLifetime 9)).err = none := by
  exact ⟨samplePaused_reachable, by decide, by decide, by decide⟩

/-- Witness for C3: the amended theorem applied to the concrete paused
sample record. -/
theorem paused_blocks_operations_witness :
    deposit_token samplePaused 100 2000 50 =
      ⟨some .EscrowPaused, samplePaused, []⟩ ∧
    withdraw_token samplePaused 100 2000 50 =
      ⟨some .EscrowPaused, samplePaused, []⟩ ∧
    (set_max_lifetime samplePaused 3).err = none := by
  have h := paused_blocks_operations samplePaused (by decide) 7 100 5 2039280 9
    2000 50 3
  exact ⟨h.1, h.2.2.2.2.2.2.2.1, h.2.2.2.2.2.2.2.2.2.2 (by decide)⟩

/-- Claim C4 (amended): unpauseEscrow is gated only by the cooldown,
not by the paused flag: it fails (leaving the record unchanged) exactly
when the record has been paused before and the cooldown has not yet
elapsed; otherwise it succeeds — even on a record whose paused flag is
clear — clearing the paused bit and bumping the nonce. -/
theorem unpause_cooldown_only (e : EscrowAccount) (now : Int) :
    ((runOp e (.unpause now)).err.isSome ↔
      (e.last_paused_at ≠ 0 ∧ now - e.last_paused_at < UNPAUSE_COOLDOWN)) ∧
    ((runOp e (.unpause now)).err.isSome →
      (runOp e (.unpause now)).escrow = e ∧
      (runOp e (.unpause now)).actions = []) ∧
    ((runOp e (.unpause now)).err = none →
      (runOp e (.unpause now)).escrow =
        { e with flags := e.flags &&& (255 ^^^ FLAG_PAUSED),
                 action_nonce := wrapping_add1 e.action_nonce }) := by
  refine ⟨?_, fun h => unpause_err_frame e now h,
    fun h => (unpause_ok_shape e now h).1⟩
  rw [show runOp e (.unpause now) = unpause_escrow e now from rfl]
  unfold unpause_escrow EscrowAccount.can_unpause
  repeat' split
  all_goals simp_all

/-- Counterexample for C4 as frozen: on the reachable, never-paused
sample record (paused flag clear) unpauseEscrow succeeds and modifies
the record, rather than failing and leaving it unchanged. -/
theorem unpause_unpaused_cex :
    Reachable sampleInit ∧
    sampleInit.is_paused = false ∧
    (runOp sampleInit (.unpause 2000)).err = none ∧
    (runOp sampleInit (.unpause 2000)).escrow ≠ sampleInit := by
  exact ⟨sampleInit_reachable, by decide, by decide, by decide⟩

/-- Witness for C4: during the cooldown (paused at 1000, called at
1100) unpause fails and the record is untouched. -/
theorem unpause_cooldown_only_witness :
    (runOp samplePaused (.unpause 1100)).err.isSome = true ∧
    (runOp samplePaused (.unpause 1100)).escrow = samplePaused := by
  have h := unpause_cooldown_only samplePaused 1100
  have he : (runOp samplePaused (.unpause 1100)).err.isSome :=
    h.1.mpr (by decide)
  exact ⟨he, (h.2.1 he).1⟩

/-- Claim C5 (amended): `set_paused(true, now)` always stamps
`last_paused_at := now`, whether or not the record was already paused;
`set_paused(false, now)` never modifies `last_paused_at`.  The
pauseEscrow instruction therefore restamps the timestamp on every
call. -/
theorem set_paused_timestamp (e : EscrowAccount) (t : Int) :
    (e.set_paused true t).last_paused_at = t ∧
    (e.set_paused false t).last_paused_at = e.last_paused_at ∧
    (pause_escrow e t).escrow.last_paused_at = t := by
  refine ⟨?_, ?_, ?_⟩
  · unfold EscrowAccount.set_paused
    rw [if_pos rfl]
  · unfold EscrowAccount.set_paused
    rfl
  · rw [pause_shape]

/-- Counterexample for C5 as frozen: calling `set_paused(true, 2000)`
on a record that is already paused (stamped at 1000) moves
`last_paused_at` to 2000 instead of leaving it unchanged. -/
theorem set_paused_restamps_cex :
    samplePaused.is_paused = true ∧
    samplePaused.last_paused_at = 1000 ∧
    (samplePaused.set_paused true 2000).last_paused_at = 2000 := by
  decide

/-- Claim C7: a fee withdrawal of more than the per-period fee cap
fails with the amount-too-large error, and a trade withdrawal of more
than the per-transaction cap likewise — regardless of the held balance,
whenever the earlier checks (unpaused record) pass. -/
theorem caps_block_withdrawals (e : EscrowAccount) (caller c : Nat)
    (now : Int) (a b : Nat) (h : e.is_paused = false) :
    (MAX_SUBSCRIPTION_FEE < a →
      withdraw_subscription_fee e caller c now a =
        ⟨some .AmountTooLarge, e, []⟩) ∧
    (MAX_TRANSACTION_AMOUNT < b →
      withdraw_for_trade e caller c now b = ⟨some .AmountTooLarge, e, []⟩) := by
  constructor
  · intro ha
    have h0 : a ≠ 0 := by
      have ha' := ha
      unfold MAX_SUBSCRIPTION_FEE at ha'
      omega
    unfold withdraw_subscription_fee
    rw [if_neg (by simp [h]), if_neg h0, if_pos ha]
  · intro hb
    have h0 : b ≠ 0 := by
      have hb' := hb
      unfold MAX_TRANSACTION_AMOUNT at hb'
      omega
    unfold withdraw_for_trade
    rw [if_neg (by simp [h]), if_neg h0, if_pos hb]

/-- Witness for C7: one unit above each cap fails on the sample record
even with an enormous held balance. -/
theorem caps_block_withdrawals_witness :
    withdraw_subscription_fee sampleInit 7 1000000000000 2000 1000000001 =
      ⟨some .AmountTooLarge, sampleInit, []⟩ ∧
    withdraw_for_trade sampleInit 7 1000000000000 2000 100000000001 =
      ⟨some .AmountTooLarge, sampleInit, []⟩ := by
  have h := caps_block_withdrawals sampleInit 7 1000000000000 2000
    1000000001 100000000001 (by decide)
  exact ⟨h.1 (by decide), h.2 (by decide)⟩

/-- Claim C2 (amended): in every reachable record state the active
flags mirror non-nullness of the corresponding authority identity, so
`has_active_authority` is true iff some authority is non-null; and
withdrawToken and closeEscrow fail whenever it is true — but the
converse direction of the frozen claim's "exactly when" holds only once
their other preconditions (unpaused, valid amount and balance, dust and
rent bounds, no accumulator overflow) are met, since a paused record
fails both operations even with no active authority. -/
theorem active_authority_gating (e : EscrowAccount) (h : Reachable e)
    (c lam : Nat) (now : Int) (a : Nat) :
    (e.has_active_authority = true ↔
      (e.platform_authority ≠ 0 ∨ e.trading_authority ≠ 0)) ∧
    (e.has_active_authority = true →
      (withdraw_token e c now a).err.isSome ∧
      (withdraw_token e c now a).escrow = e ∧
      (close_escrow e c lam).err.isSome ∧
      (close_escrow e c lam).escrow = e) ∧
    (e.is_paused = false → e.has_active_authority = false → 0 < a → a ≤ c →
      e.total_withdrawn + a < U64LIMIT →
      (withdraw_token e c now a).err = none) ∧
    (e.is_paused = false → e.has_active_authority = false →
      c ≤ DUST_THRESHOLD → MIN_RENT_EXEMPT_LAMPORTS ≤ lam →
      (close_escrow e c lam).err = none) := by
  obtain ⟨hf, hp, ht, hb, hba⟩ := reachable_inv e h
  refine ⟨?_, ?_, ?_, ?_⟩
  · unfold EscrowAccount.has_active_authority
    rw [Bool.or_eq_true, hp, ht]
  · intro hA
    by_cases hpz : e.is_paused = true
    · unfold withdraw_token close_escrow
      rw [if_pos hpz, if_pos hpz]
      exact ⟨rfl, rfl, rfl, rfl⟩
    · unfold withdraw_token close_escrow
      rw [if_neg hpz, if_neg hpz, if_pos hA, if_pos hA]
      exact ⟨rfl, rfl, rfl, rfl⟩
  · intro h1 h2 h3 h4 h5
    have hca : checked_add e.total_withdrawn a = some (e.total_withdrawn + a) := by
      unfold checked_add
      rw [if_pos h5]
    unfold withdraw_token
    rw [if_neg (by simp [h1]), if_neg (by simp [h2]), if_neg (by omega),
      if_neg (by omega), hca]
  · intro h1 h2 hc hlam
    unfold close_escrow
    rw [if_neg (by simp [h1]), if_neg (by simp [h2]),
      if_neg (Nat.not_lt.mpr hc), if_neg (Nat.not_lt.mpr hlam)]

/-- Counterexample for C2 as frozen: the reachable paused sample record
has no active authority, yet both withdrawToken and closeEscrow fail on
it — so they do not fail "exactly when" an authority is active. -/
theorem active_authority_gating_cex :
    Reachable samplePaused ∧
    samplePaused.has_active_authority = false ∧
    (withdraw_token samplePaused 100 2000 50).err.isSome = true ∧
    (close_escrow samplePaused 0 2039280).err.isSome = true := by
  exact ⟨samplePaused_reachable, by decide, by decide, by decide⟩

/-- Witness for C2: on the reachable record with a delegated platform
authority, the flag mirrors the non-null identity and owner withdrawal
fails. -/
theorem active_authority_gating_witness :
    sampleDelegated.has_active_authority = true ∧
    (withdraw_token sampleDelegated 100 2000 50).err.isSome = true ∧
    (withdraw_token sampleDelegated 100 2000 50).escrow = sampleDelegated := by
  have h := active_authority_gating sampleDelegated sampleDelegated_reachable
    100 2039280 2000 50
  have hA : sampleDelegated.has_active_authority = true := by decide
  exact ⟨hA, (h.2.1 hA).1, (h.2.1 hA).2.1⟩

/-- Claim C6: for every reachable (hence initialized) record, a deposit
whose resulting balance would exceed the ceiling fails; a deposit
exactly to the ceiling succeeds whenever the record is unpaused,
unexpired, the amount positive and the deposit accumulator does not
overflow; one unit over the ceiling fails; and any successful deposit
leaves the held balance at or below the ceiling. -/
theorem deposit_respects_max_balance (e : EscrowAccount) (h : Reachable e)
    (c : Nat) (now : Int) (a : Nat) :
    (e.max_balance < c + a → (deposit_token e c now a).err.isSome) ∧
    (e.is_paused = false → e.is_expired now = false → 0 < a →
      e.total_deposited + a < U64LIMIT → c + a = e.max_balance →
      (deposit_token e c now a).err = none) ∧
    (c + a = e.max_balance + 1 → (deposit_token e c now a).err.isSome) ∧
    ((deposit_token e c now a).err = none → c + a ≤ e.max_balance) := by
  obtain ⟨hf, hp, ht, hb, hba⟩ := reachable_inv e h
  have P1 : e.max_balance < c + a → (deposit_token e c now a).err.isSome := by
    intro hover
    unfold deposit_token
    repeat' split
    all_goals simp_all [checked_add_eq_some]
  refine ⟨P1, ?_, fun h1 => P1 (by omega), ?_⟩
  · intro h1 h2 h3 h4 h5
    have hMA : MAX_ALLOWED_BALANCE < U64LIMIT := by decide
    have h6 : c + a < U64LIMIT := by omega
    have hca : checked_add c a = some (c + a) := by
      unfold checked_add
      rw [if_pos h6]
    have htd : checked_add e.total_deposited a
        = some (e.total_deposited + a) := by
      unfold checked_add
      rw [if_pos h4]
    unfold deposit_token
    rw [if_neg (by simp [h1]), if_neg (by omega), if_neg (by simp [h2]), hca]
    dsimp only
    rw [if_neg (by omega), htd]
  · intro hok
    obtain ⟨-, -, -, -, -, h6, h7⟩ := deposit_ok_shape e c now a hok
    omega

/-- Witness for C6: on the freshly initialized sample record (ceiling
`10^12`), depositing exactly up to the ceiling succeeds. -/
theorem deposit_respects_max_balance_witness :
    (deposit_token sampleInit 999999999995 2000 5).err = none ∧
    999999999995 + 5 ≤ sampleInit.max_balance := by
  have h := deposit_respects_max_balance sampleInit sampleInit_reachable
    999999999995 2000 5
  have hok := h.2.1 (by decide) (by decide) (by decide) (by decide) (by decide)
  exact ⟨hok, h.2.2.2 hok⟩

/-- The record obtained from `sampleInit` by two successive pauses, at
times 1000 and 1001. -/
def sampleTwicePaused : EscrowAccount :=
  { sampleInit with flags := 4, last_paused_at := 1001, action_nonce := 2 }

/-- A reachable record whose nonce sits at the largest `u64` value,
obtained by `2^64 - 1` successive pauses. -/
def nonceEdge : EscrowAccount :=
  { sampleInit with flags := 4, last_paused_at := 1000,
                    action_nonce := U64LIMIT - 1 }

/-- Claim C8 (amended): each successful mutating operation sets the
nonce to its old value plus one reduced modulo `2^64` (the source uses
`wrapping_add`), so after N successful operations the nonce equals the
old value plus N modulo `2^64`; it is monotone only while no wraparound
occurs, i.e. while the old value plus N stays below `2^64`. -/
theorem nonce_increment_mod (e e' : EscrowAccount) (o : Op) (l : List Op)
    (hn : e.action_nonce < U64LIMIT) :
    ((runOp e o).err = none →
      (runOp e o).escrow.action_nonce = (e.action_nonce + 1) % U64LIMIT) ∧
    (runOps e l = some e' →
      e'.action_nonce = (e.action_nonce + l.length) % U64LIMIT) ∧
    (runOps e l = some e' → e.action_nonce + l.length < U64LIMIT →
      e.action_nonce ≤ e'.action_nonce) := by
  refine ⟨fun h => runOp_nonce e o h, fun h => runOps_nonce l e e' hn h,
    fun h hlt => ?_⟩
  rw [runOps_nonce l e e' hn h, Nat.mod_eq_of_lt hlt]
  omega

/-- Counterexample for C8 as frozen: the reachable record whose nonce
is `2^64 - 1` still accepts a pause, after which the nonce is 0 — it
decreased and did not grow by one. -/
theorem nonce_wraparound_cex :
    Reachable nonceEdge ∧
    (runOp nonceEdge (.pause 1000)).err = none ∧
    nonceEdge.action_nonce = U64LIMIT - 1 ∧
    (runOp nonceEdge (.pause 1000)).escrow.action_nonce = 0 := by
  refine ⟨?_, by rfl, by rfl, by decide⟩
  have h := pause_iter_reachable (U64LIMIT - 2)
  have he : pausedIter (U64LIMIT - 2) = nonceEdge := by
    unfold pausedIter nonceEdge
    ext <;> simp
    rw [U64LIMIT_eq]
  rwa [he] at h

/-- Witness for C8: two pauses move the sample record's nonce from 0 to
`(0 + 2) % 2^64 = 2`, monotonically. -/
theorem nonce_increment_mod_witness :
    (runOp sampleInit (.pause 1000)).escrow.action_nonce
      = (sampleInit.action_nonce + 1) % U64LIMIT ∧
    sampleTwicePaused.action_nonce
      = (sampleInit.action_nonce + [Op.pause 1000, Op.pause 1001].length)
          % U64LIMIT ∧
    sampleInit.action_nonce ≤ sampleTwicePaused.action_nonce := by
  have h := nonce_increment_mod sampleInit sampleTwicePaused (.pause 1000)
    [.pause 1000, .pause 1001] (by decide)
  exact ⟨h.1 (by rfl), h.2.1 (by rfl), h.2.2 (by rfl) (by decide)⟩

/-- A sample record whose lifetime bound of 10 seconds has lapsed at
time 2000. -/
def sampleExpiring : EscrowAccount := { sampleInit with max_lifetime := 10 }

/-- Claim C9: expiry gates only depositToken and the two delegate
operations.  The four withdrawal paths never read the expiry inputs:
their outcome on a record is identical (error, interactions, and state
up to the untouched `max_lifetime` field) to the outcome on the same
record with expiry disabled; and on an expired record, deposit and both
delegations fail with the expired error whenever their earlier checks
pass. -/
theorem expiry_gates_only_deposit_and_delegation (e : EscrowAccount)
    (caller c lam : Nat) (now : Int) (a auth : Nat) :
    (EscrowAccount.is_expired { e with max_lifetime := 0 } now = false) ∧
    ((withdraw_token { e with max_lifetime := 0 } c now a).err
        = (withdraw_token e c now a).err ∧
      (withdraw_token { e with max_lifetime := 0 } c now a).actions
        = (withdraw_token e c now a).actions ∧
      (withdraw_token { e with max_lifetime := 0 } c now a).escrow
        = { (withdraw_token e c now a).escrow with max_lifetime := 0 }) ∧
    ((withdraw_subscription_fee { e with max_lifetime := 0 } caller c now a).err
        = (withdraw_subscription_fee e caller c now a).err ∧
      (withdraw_subscription_fee { e with max_lifetime := 0 } caller c now a).actions
        = (withdraw_subscription_fee e caller c now a).actions ∧
      (withdraw_subscription_fee { e with max_lifetime := 0 } caller c now a).escrow
        = { (withdraw_subscription_fee e caller c now a).escrow with
            max_lifetime := 0 }) ∧
    ((withdraw_for_trade { e with max_lifetime := 0 } caller c now a).err
        = (withdraw_for_trade e caller c now a).err ∧
      (withdraw_for_trade { e with max_lifetime := 0 } caller c now a).actions
        = (withdraw_for_trade e caller c now a).actions ∧
      (withdraw_for_trade { e with max_lifetime := 0 } caller c now a).escrow
        = { (withdraw_for_trade e caller c now a).escrow with
            max_lifetime := 0 }) ∧
    ((emergency_withdraw { e with max_lifetime := 0 } c a).err
        = (emergency_withdraw e c a).err ∧
      (emergency_withdraw { e with max_lifetime := 0 } c a).actions
        = (emergency_withdraw e c a).actions ∧
      (emergency_withdraw { e with max_lifetime := 0 } c a).escrow
        = { (emergency_withdraw e c a).escrow with max_lifetime := 0 }) ∧
    (e.is_expired now = true → e.is_paused = false →
      (a ≠ 0 → (deposit_token e c now a).err = some .EscrowExpired) ∧
      (auth ≠ 0 → e.platform_authority = 0 →
        (delegate_platform_authority e now auth).err = some .EscrowExpired) ∧
      (auth ≠ 0 → e.trading_authority = 0 →
        (delegate_trading_authority e now auth).err = some .EscrowExpired)) := by
  refine ⟨rfl, ?_, ?_, ?_, ?_, ?_⟩
  · unfold withdraw_token EscrowAccount.is_paused
      EscrowAccount.has_active_authority EscrowAccount.is_platform_active
      EscrowAccount.is_trading_active
    dsimp only
    repeat' split
    all_goals simp_all
  · unfold withdraw_subscription_fee EscrowAccount.is_paused
      EscrowAccount.is_platform_authority_mature
    dsimp only
    repeat' split
    all_goals simp_all
  · unfold withdraw_for_trade EscrowAccount.is_paused
      EscrowAccount.is_trading_authority_mature
    dsimp only
    repeat' split
    all_goals simp_all
  · unfold emergency_withdraw EscrowAccount.is_paused
      EscrowAccount.has_active_authority EscrowAccount.is_platform_active
      EscrowAccount.is_trading_active
    dsimp only
    repeat' split
    all_goals simp_all
  · intro hex hpz
    refine ⟨?_, ?_, ?_⟩
    · intro ha
      unfold deposit_token
      rw [if_neg (by simp [hpz]), if_neg ha, if_pos hex]
    · intro ha hfree
      unfold delegate_platform_authority
      rw [if_neg (by simp [hpz]), if_neg ha, if_neg (by simp [hfree]),
        if_pos hex]
    · intro ha hfree
      unfold delegate_trading_authority
      rw [if_neg (by simp [hpz]), if_neg ha, if_neg (by simp [hfree]),
        if_pos hex]

/-- Witness for C9: at time 2000 the 10-second-lifetime sample record
is expired — deposit fails with the expired error, while owner
withdrawal behaves exactly as it does with expiry disabled. -/
theorem expiry_gates_witness :
    sampleExpiring.is_expired 2000 = true ∧
    (deposit_token sampleExpiring 0 2000 5).err = some .EscrowExpired ∧
    (delegate_platform_authority sampleExpiring 2000 9).err
      = some .EscrowExpired ∧
    (withdraw_token { sampleExpiring with max_lifetime := 0 } 100 2000 50).err
      = (withdraw_token sampleExpiring 100 2000 50).err := by
  have h := expiry_gates_only_deposit_and_delegation sampleExpiring 7 100
    2039280 2000 5 9
  have hg := h.2.2.2.2.2 (by decide) (by decide)
  exact ⟨by decide, hg.1 (by decide), hg.2.1 (by decide) (by decide), h.2.1.1⟩

/-- Claim C10: every successful balance-moving operation changes
exactly two record fields — its own accumulator and the action nonce —
as witnessed by a record-update equation that leaves the owner, both
authority identities, the mint, bump, flags, all four timestamps, the
ceiling, the lifetime and the reserved block untouched. -/
theorem balance_ops_frame (e : EscrowAccount) (caller c : Nat) (now : Int)
    (a : Nat) :
    ((deposit_token e c now a).err = none →
      (deposit_token e c now a).escrow =
        { e with total_deposited := e.total_deposited + a,
                 action_nonce := wrapping_add1 e.action_nonce }) ∧
    ((withdraw_token e c now a).err = none →
      (withdraw_token e c now a).escrow =
        { e with total_withdrawn := e.total_withdrawn + a,
                 action_nonce := wrapping_add1 e.action_nonce }) ∧
    ((emergency_withdraw e c a).err = none →
      (emergency_withdraw e c a).escrow =
        { e with total_withdrawn := e.total_withdrawn + a,
                 action_nonce := wrapping_add1 e.action_nonce }) ∧
    ((withdraw_subscription_fee e caller c now a).err = none →
      (withdraw_subscription_fee e caller c now a).escrow =
        { e with total_fees_paid := e.total_fees_paid + a,
                 action_nonce := wrapping_add1 e.action_nonce }) ∧
    ((withdraw_for_trade e caller c now a).err = none →
      (withdraw_for_trade e caller c now a).escrow =
        { e with total_traded := e.total_traded + a,
                 action_nonce := wrapping_add1 e.action_nonce }) :=
  ⟨fun h => (deposit_ok_shape e c now a h).1,
   fun h => (withdraw_ok_shape e c now a h).1,
   fun h => (emergency_ok_shape e c a h).1,
   fun h => (fee_ok_shape e caller c now a h).1,
   fun h => (trade_ok_shape e caller c now a h).1⟩

/-- Witness for C10: concrete successful runs of all five
balance-moving operations, each yielding the two-field update. -/
theorem balance_ops_frame_witness :
    (deposit_token sampleInit 0 2000 5).escrow =
      { sampleInit with total_deposited := 5, action_nonce := 1 } ∧
    (withdraw_token sampleInit 100 2000 30).escrow =
      { sampleInit with total_withdrawn := 30, action_nonce := 1 } ∧
    (emergency_withdraw samplePaused 100 30).escrow =
      { samplePaused with total_withdrawn := 30, action_nonce := 2 } ∧
    (withdraw_subscription_fee sampleDelegated 7 100 1300 50).escrow =
      { sampleDelegated with total_fees_paid := 50, action_nonce := 2 } := by
  have h1 := balance_ops_frame sampleInit 7 0 2000 5
  have h2 := balance_ops_frame sampleInit 7 100 2000 30
  have h3 := balance_ops_frame samplePaused 7 100 2000 30
  have h4 := balance_ops_frame sampleDelegated 7 100 1300 50
  refine ⟨?_, ?_, ?_, ?_⟩
  · rw [h1.1 (by rfl)]
    ext <;> simp [wrapping_add1] <;> decide
  · rw [h2.2.1 (by rfl)]
    ext <;> simp [wrapping_add1] <;> decide
  · rw [h3.2.2.1 (by rfl)]
    ext <;> simp [samplePaused, wrapping_add1] <;> decide
  · rw [h4.2.2.2.1 (by rfl)]
    ext <;> simp [sampleDelegated, wrapping_add1] <;> decide

end Escrow
